import Mathlib

/-
Shallow embedding of `src/native_bridge/bluetooth_bridge.py`:

  ser = serial.Serial('COM5', 9600, timeout=1)

  @app.route('/send', methods=['POST'])
  def send_command():
      command = request.json.get('command', '') + '\n'
      ser.write(command.encode())
      return {'status': 'sent', 'command': command.strip()}

The HTTP/Flask layer, the JSON parser and the pyserial handle are modelled
by their documented semantics; the handler body is translated line by line.
-/

set_option autoImplicit false

namespace VoiceBot

/-- JSON values, as the result of Flask parsing a request body. -/
inductive JsonValue where
  | null
  | bool (b : Bool)
  | num (n : Int)
  | str (s : String)
  | arr (elems : List JsonValue)
  | obj (fields : List (String × JsonValue))

/-- A request body as handed to `request.json`: either it failed to parse as
JSON (missing body, wrong content type, or invalid JSON text), or it parsed
to a JSON value. -/
inductive Body where
  | malformed
  | parsed (j : JsonValue)

/-- Python exceptions that can escape the handler body. -/
inductive PyError where
  | badRequest      -- raised by `request.json` on an unparsable body (HTTP 400)
  | attributeError  -- `.get` called on a value that is not a dict
  | typeError       -- `x + '\n'` where `x` is not a str
  | serialError     -- pyserial write failure (closed or unavailable handle)
  deriving DecidableEq, Repr

/-- Semantics of the `request.json` property: the parsed JSON value, or a
`BadRequest` exception when the body is not valid JSON. -/
def requestJson (b : Body) : Except PyError JsonValue :=
  match b with
  | .malformed => .error .badRequest
  | .parsed j => .ok j

/-- Python dict lookup with default (`d.get(key, dflt)`); with duplicate JSON
keys Python's parser keeps the last binding, so the last match wins. -/
def dictGet (fields : List (String × JsonValue)) (key : String)
    (dflt : JsonValue) : JsonValue :=
  fields.foldl (fun acc kv => if kv.1 == key then kv.2 else acc) dflt

/-- Semantics of `j.get('command', '')` on a parsed JSON value `j`: dict
lookup when `j` is an object, `AttributeError` otherwise (Python `None`,
lists, numbers, booleans and strings have no `.get` method). -/
def jsonGet (j : JsonValue) (key : String) (dflt : JsonValue) :
    Except PyError JsonValue :=
  match j with
  | .obj fields => .ok (dictGet fields key dflt)
  | _ => .error .attributeError

/-- Semantics of `v + '\n'`: string concatenation when `v` is a str,
`TypeError` for every other value. -/
def addNewline (v : JsonValue) : Except PyError String :=
  match v with
  | .str s => .ok (s ++ "\n")
  | _ => .error .typeError

/-- The whitespace class of Python `str.strip()` (`Py_UNICODE_ISSPACE`):
tab through carriage return (U+0009 to U+000D), the separators U+001C to
U+001F, space, next line U+0085, no-break space U+00A0, ogham space mark
U+1680, the typographic spaces U+2000 to U+200A, the line and paragraph
separators U+2028 and U+2029, narrow no-break space U+202F, medium
mathematical space U+205F, and ideographic space U+3000. -/
def pyIsSpace (c : Char) : Bool :=
  let n := c.toNat
  (9 ≤ n && n ≤ 13) || (28 ≤ n && n ≤ 32) || n == 133 || n == 160 ||
  n == 5760 || (8192 ≤ n && n ≤ 8202) || n == 8232 || n == 8233 ||
  n == 8239 || n == 8287 || n == 12288

/-- Python `s.strip()`: remove whitespace from both ends of the string. -/
def pyStrip (s : String) : String :=
  ⟨((s.data.dropWhile pyIsSpace).reverse.dropWhile pyIsSpace).reverse⟩

/-- The trimming operation the specification describes for the echoed
command: removal of trailing whitespace/newline only, leaving leading
characters intact. Stated here to compare against the source's `strip()`. -/
def pyStripRight (s : String) : String :=
  ⟨((s.data.reverse.dropWhile pyIsSpace).reverse)⟩

/-- The state of the pyserial handle: whether it is open, and the byte
stream the device has received so far (in order). Strings stand for their
UTF-8 byte encodings, as produced by `command.encode()`. -/
structure SerialPort where
  isOpen : Bool
  written : String
  deriving DecidableEq, Repr

/-- Observable operations on the serial device. -/
inductive SerialAction where
  | write (payload : String)
  | read (count : Nat)
  deriving DecidableEq, Repr

/-- Semantics of `ser.write(payload)`: append the payload to the device
stream when the handle is open, raise a serial exception otherwise. -/
def serWrite (ser : SerialPort) (payload : String) :
    Except PyError SerialPort :=
  if ser.isOpen then .ok { ser with written := ser.written ++ payload }
  else .error .serialError

/-- An HTTP response: a 200 JSON body `("status": s, "command": c)`, or an
error status code. -/
inductive HttpResponse where
  | ok (status command : String)
  | httpError (code : Nat)
  deriving DecidableEq, Repr

/-- The numeric HTTP status code of a response. -/
def httpCode : HttpResponse → Nat
  | .ok _ _ => 200
  | .httpError c => c

/-- How Flask maps an exception escaping the handler to a response:
`BadRequest` (an HTTPException) becomes 400; any other uncaught exception
becomes 500. The process keeps serving in both cases. -/
def flaskCatch (e : PyError) : HttpResponse :=
  match e with
  | .badRequest => .httpError 400
  | _ => .httpError 500

/-- The outcome of one request: the HTTP response, the serial handle state
afterwards, and the trace of serial operations the handler performed. -/
structure HandlerResult where
  response : HttpResponse
  ser : SerialPort
  trace : List SerialAction
  deriving DecidableEq, Repr

/-- The `/send` handler, translated line by line:
`command = request.json.get('command', '') + '\n'`,
`ser.write(command.encode())`,
`return ('status': 'sent', 'command': command.strip())`.
Exceptions abort the handler without touching the device and are turned
into error responses by Flask. -/
def send_command (ser : SerialPort) (body : Body) : HandlerResult :=
  match requestJson body with
  | .error e => ⟨flaskCatch e, ser, []⟩
  | .ok j =>
    match jsonGet j "command" (.str "") with
    | .error e => ⟨flaskCatch e, ser, []⟩
    | .ok v =>
      match addNewline v with
      | .error e => ⟨flaskCatch e, ser, []⟩
      | .ok command =>
        match serWrite ser command with
        | .error e => ⟨flaskCatch e, ser, []⟩
        | .ok ser2 => ⟨.ok "sent" (pyStrip command), ser2, [.write command]⟩

/-- Process-level state: the identity of the serial handle in use, how many
times a serial connection has been opened, and the handle's state. -/
structure ProcState where
  handleId : Nat
  openCount : Nat
  ser : SerialPort
  deriving DecidableEq, Repr

/-- Module-level `ser = serial.Serial('COM5', 9600, timeout=1)`: opens the
one process-wide handle, or raises when the device is unavailable. -/
def openSerial (devOk : Bool) : Except PyError ProcState :=
  if devOk then .ok ⟨0, 1, ⟨true, ""⟩⟩ else .error .serialError

/-- Handle one request against the process state. The handler neither opens
nor closes serial connections, mirroring the source, which touches the
module-level `ser` only through `ser.write`. -/
def handleOne (st : ProcState) (b : Body) :
    ProcState × HttpResponse × List SerialAction :=
  let r := send_command st.ser b
  ({ st with ser := r.ser }, r.response, r.trace)

/-- Sequential request processing by the Flask server: each request
completes (producing a response) before the next begins. -/
def runRequests (st : ProcState) (reqs : List Body) :
    ProcState × List HttpResponse :=
  match reqs with
  | [] => (st, [])
  | b :: rest =>
    let step := handleOne st b
    let next := runRequests step.1 rest
    (next.1, step.2.1 :: next.2)

/-- The whole program: open the serial handle at startup, then serve; if
opening raises, the module fails to load and no request is ever served. -/
def bridgeMain (devOk : Bool) (reqs : List Body) :
    Except PyError (ProcState × List HttpResponse) :=
  match openSerial devOk with
  | .error e => .error e
  | .ok st => .ok (runRequests st reqs)

/-- The bytes a trace of serial operations delivers to the device. -/
def traceBytes : List SerialAction → String
  | [] => ""
  | .write p :: rest => p ++ traceBytes rest
  | .read _ :: rest => traceBytes rest

/-- The number of write operations in a trace. -/
def writeCount : List SerialAction → Nat
  | [] => 0
  | .write _ :: rest => writeCount rest + 1
  | .read _ :: rest => writeCount rest

/-- The number of read operations in a trace. -/
def readCount : List SerialAction → Nat
  | [] => 0
  | .write _ :: rest => readCount rest
  | .read _ :: rest => readCount rest + 1

theorem pyIsSpace_nl : pyIsSpace (Char.ofNat 10) = true := by decide

theorem dropWhile_reverse_append_nl (l : List Char) :
    ((l ++ [Char.ofNat 10]).dropWhile pyIsSpace).reverse.dropWhile pyIsSpace =
      (l.dropWhile pyIsSpace).reverse.dropWhile pyIsSpace := by
  induction l with
  | nil => simp [List.dropWhile, pyIsSpace_nl]
  | cons x l ih =>
    by_cases h : pyIsSpace x
    · simpa [List.dropWhile_cons, h] using ih
    · simp [List.dropWhile_cons, h, pyIsSpace_nl]

theorem pyStrip_append_newline (s : String) :
    pyStrip (s ++ "\n") = pyStrip s := by
  have hnl : ("\n" : String).data = [Char.ofNat 10] := rfl
  unfold pyStrip
  rw [String.data_append, hnl, dropWhile_reverse_append_nl]

/-- Evaluation of the handler on a well-formed command request against an
open handle. -/
theorem send_command_ok (ser : SerialPort) (C : String) (h : ser.isOpen = true) :
    send_command ser (.parsed (.obj [("command", .str C)])) =
      ⟨.ok "sent" (pyStrip C),
       { ser with written := ser.written ++ (C ++ "\n") },
       [.write (C ++ "\n")]⟩ := by
  simp [send_command, requestJson, jsonGet, dictGet, addNewline, serWrite, h,
    pyStrip_append_newline]

/-- Exhaustive case analysis of one handler run: either an exception escaped
(error response, no serial traffic, untouched handle), or the full
newline-terminated payload was written and acknowledged. -/
theorem send_command_cases (ser : SerialPort) (b : Body) :
    ((∃ c, (send_command ser b).response = .httpError c) ∧
        (send_command ser b).trace = [] ∧
        (send_command ser b).ser = ser) ∨
      (∃ payload, (send_command ser b).response = .ok "sent" (pyStrip payload) ∧
        (send_command ser b).trace = [.write payload] ∧
        (send_command ser b).ser = { ser with written := ser.written ++ payload }) := by
  cases hq : requestJson b with
  | error e =>
    have hsc : send_command ser b = ⟨flaskCatch e, ser, []⟩ := by
      simp only [send_command, hq]
    exact .inl ⟨by rw [hsc]; cases e <;> exact ⟨_, rfl⟩, by rw [hsc], by rw [hsc]⟩
  | ok j =>
    cases hg : jsonGet j "command" (.str "") with
    | error e =>
      have hsc : send_command ser b = ⟨flaskCatch e, ser, []⟩ := by
        simp only [send_command, hq, hg]
      exact .inl ⟨by rw [hsc]; cases e <;> exact ⟨_, rfl⟩, by rw [hsc], by rw [hsc]⟩
    | ok v =>
      cases hn : addNewline v with
      | error e =>
        have hsc : send_command ser b = ⟨flaskCatch e, ser, []⟩ := by
          simp only [send_command, hq, hg, hn]
        exact .inl ⟨by rw [hsc]; cases e <;> exact ⟨_, rfl⟩, by rw [hsc], by rw [hsc]⟩
      | ok command =>
        cases hw : serWrite ser command with
        | error e =>
          have hsc : send_command ser b = ⟨flaskCatch e, ser, []⟩ := by
            simp only [send_command, hq, hg, hn, hw]
          exact .inl ⟨by rw [hsc]; cases e <;> exact ⟨_, rfl⟩, by rw [hsc], by rw [hsc]⟩
        | ok ser2 =>
          have hs2 : ser2 = { ser with written := ser.written ++ command } := by
            unfold serWrite at hw
            by_cases ho : ser.isOpen
            · rw [if_pos ho] at hw
              exact (Except.ok.inj hw).symm
            · rw [if_neg ho] at hw
              exact Except.noConfusion hw
          have hsc : send_command ser b =
              ⟨.ok "sent" (pyStrip command), ser2, [.write command]⟩ := by
            simp only [send_command, hq, hg, hn, hw]
          exact .inr ⟨command, by rw [hsc], by rw [hsc], by rw [hsc, hs2]⟩

/-- A handler run never changes the open/closed state of the handle. -/
theorem send_command_isOpen (ser : SerialPort) (b : Body) :
    (send_command ser b).ser.isOpen = ser.isOpen := by
  rcases send_command_cases ser b with ⟨_, _, hs⟩ | ⟨p, _, _, hs⟩ <;> rw [hs]

/-- The device stream after a handler run is the stream before it followed
by exactly the bytes of the run's trace. -/
theorem send_command_written (ser : SerialPort) (b : Body) :
    (send_command ser b).ser.written
      = ser.written ++ traceBytes (send_command ser b).trace := by
  rcases send_command_cases ser b with ⟨_, ht, hs⟩ | ⟨p, _, ht, hs⟩ <;>
    rw [ht, hs] <;> simp [traceBytes, String.append_empty]

/-- Sequential serving produces exactly one response per request. -/
theorem runRequests_length (st : ProcState) (reqs : List Body) :
    ((runRequests st reqs).2).length = reqs.length := by
  induction reqs generalizing st with
  | nil => rfl
  | cons b rest ih => simp [runRequests, ih]

/-- Request handling touches neither the handle identity nor the number of
serial connections ever opened. -/
theorem runRequests_handle (st : ProcState) (reqs : List Body) :
    (runRequests st reqs).1.handleId = st.handleId ∧
      (runRequests st reqs).1.openCount = st.openCount := by
  induction reqs generalizing st with
  | nil => exact ⟨rfl, rfl⟩
  | cons b rest ih => simpa [runRequests, handleOne] using ih _

/-- Request handling preserves the open/closed state of the handle. -/
theorem runRequests_isOpen (st : ProcState) (reqs : List Body) :
    (runRequests st reqs).1.ser.isOpen = st.ser.isOpen := by
  induction reqs generalizing st with
  | nil => rfl
  | cons b rest ih =>
    have h1 := ih ({ st with ser := (send_command st.ser b).ser })
    simp only [runRequests, handleOne] at h1 ⊢
    rw [h1]
    exact send_command_isOpen st.ser b

/-- Python `d.get(key, dflt)` returns the default when no binding of the
dict carries the key. -/
theorem dictGet_no_key (fields : List (String × JsonValue)) (key : String)
    (dflt : JsonValue) (h : ∀ kv ∈ fields, kv.1 ≠ key) :
    dictGet fields key dflt = dflt := by
  unfold dictGet
  induction fields with
  | nil => rfl
  | cons kv rest ih =>
    have hk : (kv.1 == key) = false :=
      beq_eq_false_iff_ne.mpr (h kv (List.mem_cons_self kv rest))
    simp only [List.foldl_cons, hk, Bool.false_eq_true, if_false]
    exact ih (fun kv2 hm => h kv2 (List.mem_cons_of_mem kv hm))

/-- Evaluation of the handler on a request whose parsed body is an object
without a `command` field: the empty command defaults in. -/
theorem send_command_no_field (ser : SerialPort)
    (fields : List (String × JsonValue)) (h : ser.isOpen = true)
    (hf : ∀ kv ∈ fields, kv.1 ≠ "command") :
    send_command ser (.parsed (.obj fields)) =
      ⟨.ok "sent" "", { ser with written := ser.written ++ "\n" }, [.write "\n"]⟩ := by
  have hd : dictGet fields "command" (.str "") = .str "" :=
    dictGet_no_key fields "command" (.str "") hf
  have he : ("" ++ "\n" : String) = "\n" := rfl
  have hs : pyStrip "\n" = "" := by decide
  simp [send_command, requestJson, jsonGet, hd, addNewline, serWrite, h, he, hs]

/-- C1: the claim is false as stated. The source echoes `command.strip()`,
and Python `strip` removes leading whitespace as well: for the command
" LED" the handler answers with command "LED", while trimming only trailing
whitespace would keep the leading space. -/
theorem c1_leading_space_counterexample :
    (send_command ⟨true, ""⟩ (.parsed (.obj [("command", .str " LED")]))).response
        = .ok "sent" "LED" ∧
      pyStripRight " LED" = " LED" ∧
      HttpResponse.ok "sent" "LED" ≠ .ok "sent" " LED" := by
  refine ⟨?_, ?_, ?_⟩ <;> decide

/-- C1 (amended): for every command string C posted as the `command` field
against an open handle, the handler writes exactly the bytes of C followed
by one newline to the serial device, and answers status "sent" with the
command trimmed of BOTH leading and trailing whitespace. -/
theorem c1_write_and_echo (C : String) (ser : SerialPort)
    (h : ser.isOpen = true) :
    (send_command ser (.parsed (.obj [("command", .str C)]))).trace
        = [.write (C ++ "\n")] ∧
      (send_command ser (.parsed (.obj [("command", .str C)]))).ser.written
        = ser.written ++ (C ++ "\n") ∧
      (send_command ser (.parsed (.obj [("command", .str C)]))).response
        = .ok "sent" (pyStrip C) := by
  rw [send_command_ok ser C h]
  exact ⟨rfl, rfl, rfl⟩

/-- C1 witness: a concrete run, command "LED_ON" on a fresh open handle. -/
theorem c1_write_and_echo_witness :
    (SerialPort.mk true "").isOpen = true ∧
      ((send_command ⟨true, ""⟩ (.parsed (.obj [("command", .str "LED_ON")]))).trace
          = [.write ("LED_ON" ++ "\n")] ∧
        (send_command ⟨true, ""⟩
            (.parsed (.obj [("command", .str "LED_ON")]))).ser.written
          = (SerialPort.mk true "").written ++ ("LED_ON" ++ "\n") ∧
        (send_command ⟨true, ""⟩ (.parsed (.obj [("command", .str "LED_ON")]))).response
          = .ok "sent" (pyStrip "LED_ON")) :=
  ⟨rfl, c1_write_and_echo "LED_ON" ⟨true, ""⟩ rfl⟩

/-- C2: the claim is false as stated for unparsable bodies: `request.json`
raises BadRequest there, Flask answers HTTP 400, and nothing is written to
the serial handle (no newline, no success response). -/
theorem c2_malformed_counterexample :
    (send_command ⟨true, ""⟩ .malformed).response = .httpError 400 ∧
      (send_command ⟨true, ""⟩ .malformed).trace = [] :=
  ⟨rfl, rfl⟩

/-- C2 (amended): every parsed object body without a `command` field is
treated as the empty command: exactly one newline is written and the
response echoes the empty command; an unparsable body instead yields HTTP
400 with nothing written and the handle untouched. -/
theorem c2_missing_or_malformed (ser : SerialPort)
    (fields : List (String × JsonValue)) (h : ser.isOpen = true)
    (hf : ∀ kv ∈ fields, kv.1 ≠ "command") :
    ((send_command ser (.parsed (.obj fields))).trace = [.write "\n"] ∧
        (send_command ser (.parsed (.obj fields))).response = .ok "sent" "") ∧
      ((send_command ser .malformed).response = .httpError 400 ∧
        (send_command ser .malformed).trace = [] ∧
        (send_command ser .malformed).ser = ser) := by
  rw [send_command_no_field ser fields h hf]
  exact ⟨⟨rfl, rfl⟩, rfl, rfl, rfl⟩

/-- C2 witness: the two amended scenarios on a fresh open handle, with the
nonempty command-less body ("x": 5). -/
theorem c2_missing_or_malformed_witness :
    (SerialPort.mk true "").isOpen = true ∧
      (∀ kv ∈ [(("x" : String), JsonValue.num 5)], kv.1 ≠ "command") ∧
      (((send_command ⟨true, ""⟩ (.parsed (.obj [("x", .num 5)]))).trace
            = [.write "\n"] ∧
          (send_command ⟨true, ""⟩ (.parsed (.obj [("x", .num 5)]))).response
            = .ok "sent" "") ∧
        ((send_command ⟨true, ""⟩ .malformed).response = .httpError 400 ∧
          (send_command ⟨true, ""⟩ .malformed).trace = [] ∧
          (send_command ⟨true, ""⟩ .malformed).ser = ⟨true, ""⟩)) := by
  have hf : ∀ kv ∈ [(("x" : String), JsonValue.num 5)], kv.1 ≠ "command" := by
    intro kv hm
    rw [List.mem_singleton] at hm
    subst hm
    decide
  exact ⟨rfl, hf, c2_missing_or_malformed ⟨true, ""⟩ [("x", .num 5)] rfl hf⟩

/-- C3: with an unavailable (closed) serial handle, a well-formed command
request fails: the write raises, the failure surfaces as HTTP 500, nothing
reaches the device, the handle state is unchanged, and the server still
answers every request in the queue (one response per request, no crash). -/
theorem c3_unavailable_handle (ser : SerialPort) (C : String)
    (rest : List Body) (h : ser.isOpen = false) :
    (send_command ser (.parsed (.obj [("command", .str C)]))).response
        = .httpError 500 ∧
      (send_command ser (.parsed (.obj [("command", .str C)]))).trace = [] ∧
      (send_command ser (.parsed (.obj [("command", .str C)]))).ser = ser ∧
      ((runRequests ⟨0, 1, ser⟩
          (.parsed (.obj [("command", .str C)]) :: rest)).2).length
        = rest.length + 1 := by
  have hsc : send_command ser (.parsed (.obj [("command", .str C)])) =
      ⟨.httpError 500, ser, []⟩ := by
    simp [send_command, requestJson, jsonGet, dictGet, addNewline, serWrite, h,
      flaskCatch]
  refine ⟨by rw [hsc], by rw [hsc], by rw [hsc], ?_⟩
  simpa using runRequests_length ⟨0, 1, ser⟩
    (.parsed (.obj [("command", .str C)]) :: rest)

/-- C3 witness: concrete closed handle, command "LED_ON", empty queue. -/
theorem c3_unavailable_handle_witness :
    (SerialPort.mk false "").isOpen = false ∧
      ((send_command ⟨false, ""⟩ (.parsed (.obj [("command", .str "LED_ON")]))).response
          = .httpError 500 ∧
        (send_command ⟨false, ""⟩ (.parsed (.obj [("command", .str "LED_ON")]))).trace
          = [] ∧
        (send_command ⟨false, ""⟩ (.parsed (.obj [("command", .str "LED_ON")]))).ser
          = ⟨false, ""⟩ ∧
        ((runRequests ⟨0, 1, ⟨false, ""⟩⟩
            (.parsed (.obj [("command", .str "LED_ON")]) :: [])).2).length
          = List.length ([] : List Body) + 1) :=
  ⟨rfl, c3_unavailable_handle ⟨false, ""⟩ "LED_ON" [] rfl⟩

/-- C4: on every request on which the serial write happened (the trace is
nonempty), the response is HTTP 200 whose status field is literally "sent";
the success path produces no other code and no other status value. -/
theorem c4_success_is_sent_200 (ser : SerialPort) (b : Body)
    (h : (send_command ser b).trace ≠ []) :
    ∃ cmd, (send_command ser b).response = .ok "sent" cmd ∧
      httpCode (send_command ser b).response = 200 := by
  rcases send_command_cases ser b with ⟨_, ht, _⟩ | ⟨p, hr, _, _⟩
  · exact absurd ht h
  · exact ⟨pyStrip p, hr, by rw [hr]; rfl⟩

/-- C4 witness: the concrete "LED_ON" request performs a write and answers
200 "sent". -/
theorem c4_success_is_sent_200_witness :
    (send_command ⟨true, ""⟩ (.parsed (.obj [("command", .str "LED_ON")]))).trace
        ≠ [] ∧
      ∃ cmd,
        (send_command ⟨true, ""⟩ (.parsed (.obj [("command", .str "LED_ON")]))).response
            = .ok "sent" cmd ∧
          httpCode (send_command ⟨true, ""⟩
              (.parsed (.obj [("command", .str "LED_ON")]))).response = 200 :=
  ⟨by decide,
    c4_success_is_sent_200 ⟨true, ""⟩ (.parsed (.obj [("command", .str "LED_ON")]))
      (by decide)⟩

/-- C5: the connection is opened exactly once at startup, and serving any
sequence of requests never opens another one nor switches handles: after any
run, the open count is still exactly 1 and the handle identity is the one
from startup. -/
theorem c5_one_handle_per_process (st : ProcState) (reqs : List Body)
    (h : openSerial true = .ok st) :
    (runRequests st reqs).1.openCount = 1 ∧
      (runRequests st reqs).1.handleId = st.handleId ∧
      (runRequests st reqs).1.openCount = st.openCount := by
  have hst : st = ⟨0, 1, ⟨true, ""⟩⟩ := (Except.ok.inj h).symm
  subst hst
  have h1 := runRequests_handle ⟨0, 1, ⟨true, ""⟩⟩ reqs
  exact ⟨h1.2, h1.1, h1.2⟩

/-- C5 witness: the startup state, one concrete request. -/
theorem c5_one_handle_per_process_witness :
    openSerial true = .ok (⟨0, 1, ⟨true, ""⟩⟩ : ProcState) ∧
      ((runRequests ⟨0, 1, ⟨true, ""⟩⟩
            [.parsed (.obj [("command", .str "LED_ON")])]).1.openCount = 1 ∧
        (runRequests ⟨0, 1, ⟨true, ""⟩⟩
            [.parsed (.obj [("command", .str "LED_ON")])]).1.handleId
          = (ProcState.mk 0 1 ⟨true, ""⟩).handleId ∧
        (runRequests ⟨0, 1, ⟨true, ""⟩⟩
            [.parsed (.obj [("command", .str "LED_ON")])]).1.openCount
          = (ProcState.mk 0 1 ⟨true, ""⟩).openCount) :=
  ⟨rfl, c5_one_handle_per_process ⟨0, 1, ⟨true, ""⟩⟩
    [.parsed (.obj [("command", .str "LED_ON")])] rfl⟩

/-- C6: when the serial device cannot be opened, startup raises and the
program ends with that error: no request is ever served and no response is
ever produced. -/
theorem c6_startup_failure_is_fatal (reqs : List Body) :
    bridgeMain false reqs = .error .serialError :=
  rfl

/-- C7: the claim is false as stated: a request whose `command` field is the
number 3 raises a TypeError before the write, so that request performs zero
writes, not exactly one. -/
theorem c7_zero_writes_counterexample :
    writeCount (send_command ⟨true, ""⟩
        (.parsed (.obj [("command", .num 3)]))).trace = 0 ∧
      (send_command ⟨true, ""⟩ (.parsed (.obj [("command", .num 3)]))).response
        = .httpError 500 :=
  ⟨rfl, rfl⟩

/-- C7 (amended): no request ever reads from the device, and every request
that is answered with the success response performed exactly one write. -/
theorem c7_one_write_no_read (ser : SerialPort) (b : Body) :
    readCount (send_command ser b).trace = 0 ∧
      ∀ s c, (send_command ser b).response = .ok s c →
        writeCount (send_command ser b).trace = 1 := by
  rcases send_command_cases ser b with ⟨⟨code, hr⟩, ht, _⟩ | ⟨p, hr, ht, _⟩
  · refine ⟨by rw [ht]; rfl, fun s c hok => ?_⟩
    rw [hr] at hok
    exact HttpResponse.noConfusion hok
  · exact ⟨by rw [ht]; rfl, fun s c hok => by rw [ht]; rfl⟩

/-- C7 witness: the concrete "LED_ON" request answers success and wrote
exactly once. -/
theorem c7_one_write_no_read_witness :
    writeCount (send_command ⟨true, ""⟩
        (.parsed (.obj [("command", .str "LED_ON")]))).trace = 1 :=
  (c7_one_write_no_read ⟨true, ""⟩
      (.parsed (.obj [("command", .str "LED_ON")]))).2
    "sent" (pyStrip ("LED_ON" ++ "\n")) rfl

/-- C8: under sequential processing, the device stream after two requests is
the initial stream, then every byte of the first request's serial traffic,
then every byte of the second request's: the first payload is fully
transmitted before any byte of the second. -/
theorem c8_sequential_no_interleaving (ser : SerialPort) (b1 b2 : Body) :
    (send_command (send_command ser b1).ser b2).ser.written
      = ser.written ++ traceBytes (send_command ser b1).trace
          ++ traceBytes (send_command (send_command ser b1).ser b2).trace := by
  rw [send_command_written (send_command ser b1).ser b2,
    send_command_written ser b1]

/-- C9: a valid JSON object whose `command` value is not a string makes the
handler raise a TypeError on the `+ '\n'` concatenation: the request fails
with HTTP 500, nothing is written, and the handle is untouched. -/
theorem c9_nonstring_command_fails (ser : SerialPort) (v : JsonValue)
    (h : ∀ s, v ≠ .str s) :
    (send_command ser (.parsed (.obj [("command", v)]))).response
        = .httpError 500 ∧
      (send_command ser (.parsed (.obj [("command", v)]))).trace = [] ∧
      (send_command ser (.parsed (.obj [("command", v)]))).ser = ser := by
  have hv : addNewline v = .error .typeError := by
    cases v with
    | str s => exact absurd rfl (h s)
    | null => rfl
    | bool b => rfl
    | num n => rfl
    | arr elems => rfl
    | obj fields => rfl
  have hsc : send_command ser (.parsed (.obj [("command", v)])) =
      ⟨.httpError 500, ser, []⟩ := by
    simp [send_command, requestJson, jsonGet, dictGet, hv, flaskCatch]
  exact ⟨by rw [hsc], by rw [hsc], by rw [hsc]⟩

/-- C9 witness: the number 3 as command value is rejected with 500 and no
write. -/
theorem c9_nonstring_command_fails_witness :
    (∀ s, JsonValue.num 3 ≠ .str s) ∧
      ((send_command ⟨true, ""⟩ (.parsed (.obj [("command", .num 3)]))).response
          = .httpError 500 ∧
        (send_command ⟨true, ""⟩ (.parsed (.obj [("command", .num 3)]))).trace
          = [] ∧
        (send_command ⟨true, ""⟩ (.parsed (.obj [("command", .num 3)]))).ser
          = ⟨true, ""⟩) :=
  ⟨fun _ hs => JsonValue.noConfusion hs,
    c9_nonstring_command_fails ⟨true, ""⟩ (.num 3)
      (fun _ hs => JsonValue.noConfusion hs)⟩

/-- C10: a request body that is valid JSON but not an object makes the
handler raise an AttributeError on `.get`: the request fails with HTTP 500,
nothing is written, and the handle is untouched. -/
theorem c10_nonobject_body_fails (ser : SerialPort) (j : JsonValue)
    (h : ∀ fields, j ≠ .obj fields) :
    (send_command ser (.parsed j)).response = .httpError 500 ∧
      (send_command ser (.parsed j)).trace = [] ∧
      (send_command ser (.parsed j)).ser = ser := by
  have hj : jsonGet j "command" (.str "") = .error .attributeError := by
    cases j with
    | obj fields => exact absurd rfl (h fields)
    | null => rfl
    | bool b => rfl
    | num n => rfl
    | str s => rfl
    | arr elems => rfl
  have hsc : send_command ser (.parsed j) = ⟨.httpError 500, ser, []⟩ := by
    simp [send_command, requestJson, hj, flaskCatch]
  exact ⟨by rw [hsc], by rw [hsc], by rw [hsc]⟩

/-- C10 witness: the JSON literal null as full body is rejected with 500 and
no write. -/
theorem c10_nonobject_body_fails_witness :
    (∀ fields, JsonValue.null ≠ .obj fields) ∧
      ((send_command ⟨true, ""⟩ (.parsed .null)).response = .httpError 500 ∧
        (send_command ⟨true, ""⟩ (.parsed .null)).trace = [] ∧
        (send_command ⟨true, ""⟩ (.parsed .null)).ser = ⟨true, ""⟩) :=
  ⟨fun _ hf => JsonValue.noConfusion hf,
    c10_nonobject_body_fails ⟨true, ""⟩ .null
      (fun _ hf => JsonValue.noConfusion hf)⟩

end VoiceBot
